import Mathlib

/-
Verification of the dimension-transition controller in
src/src/CollapseTransition.vue (vue-collapse-transition).

The component is embedded shallowly: the reactive data (the style cache)
and props become a `ComponentState`, the DOM element inline styles and
measurable geometry become an `Element`, and every method of the
component becomes a pure function returning the new state, the new
element, and a trace of observable effects (style writes, layout or
computed-style reads, event emissions, scheduled timeouts).
-/

namespace CollapseTransitionModel

/-- The six style-property keys that can appear in the cache, from the
TypeScript interface CachedStyles. -/
inductive StyleKey where
  | height
  | paddingTop
  | paddingBottom
  | width
  | paddingLeft
  | paddingRight
  deriving DecidableEq, Repr

/-- The camelCase name of a cached style key, as used by Object.keys. -/
def StyleKey.name : StyleKey → String
  | .height => "height"
  | .paddingTop => "paddingTop"
  | .paddingBottom => "paddingBottom"
  | .width => "width"
  | .paddingLeft => "paddingLeft"
  | .paddingRight => "paddingRight"

/-- Source `this.cachedStyles`: a JS object, modelled as an insertion-ordered
association list from style keys to CSS length strings. -/
abbrev CachedStyles := List (StyleKey × String)

/-- The inline styles of the element that the component reads or writes
(`el.style.*`). The empty string means the inline style is unset. -/
structure InlineStyle where
  visibility : String := ""
  display : String := ""
  overflow : String := ""
  transition : String := ""
  height : String := ""
  paddingTop : String := ""
  paddingBottom : String := ""
  width : String := ""
  paddingLeft : String := ""
  paddingRight : String := ""
  deriving DecidableEq, Repr

/-- Read the inline style of one of the six cacheable keys
(`el.style[key]`). -/
def InlineStyle.getKey (st : InlineStyle) : StyleKey → String
  | .height => st.height
  | .paddingTop => st.paddingTop
  | .paddingBottom => st.paddingBottom
  | .width => st.width
  | .paddingLeft => st.paddingLeft
  | .paddingRight => st.paddingRight

/-- Write the inline style of one of the six cacheable keys
(`el.style[key] = v`). -/
def InlineStyle.setKey (st : InlineStyle) (k : StyleKey) (v : String) : InlineStyle :=
  match k with
  | .height => { st with height := v }
  | .paddingTop => { st with paddingTop := v }
  | .paddingBottom => { st with paddingBottom := v }
  | .width => { st with width := v }
  | .paddingLeft => { st with paddingLeft := v }
  | .paddingRight => { st with paddingRight := v }

/-- A DOM element handle.  `ref` models JS object identity; the offset
sizes and computed paddings model what the DOM would report when the
probe reads them. -/
structure Element where
  ref : Nat := 0
  style : InlineStyle := {}
  offsetHeight : Nat := 0
  offsetWidth : Nat := 0
  computedPaddingTop : String := ""
  computedPaddingBottom : String := ""
  computedPaddingLeft : String := ""
  computedPaddingRight : String := ""
  deriving DecidableEq, Repr

/-- The props and reactive data of the component. -/
structure ComponentState where
  name : String := "collapse"
  dimension : String := "height"
  duration : Nat := 300
  easing : String := "ease-in"
  cachedStyles : CachedStyles := []
  deriving DecidableEq, Repr

/-- Observable effects of a method invocation, in order. -/
inductive Effect where
  | styleWrite (prop : String) (value : String)
  | layoutRead (prop : String)
  | computedRead (prop : String)
  | emitted (event : String) (elRef : Nat) (doneRef : Option Nat)
  | timeoutScheduled (doneRef : Nat) (delay : Nat)
  deriving DecidableEq, Repr

/-- Whether an effect is an event emission. -/
def Effect.isEmit : Effect → Bool
  | .emitted _ _ _ => true
  | _ => false

/-- Whether an effect is a scheduled timeout. -/
def Effect.isTimeout : Effect → Bool
  | .timeoutScheduled _ _ => true
  | _ => false

/-- Whether an effect writes one of the six size/padding style keys. -/
def Effect.isDimensionWrite : Effect → Bool
  | .styleWrite p _ =>
      decide (p = "height" ∨ p = "paddingTop" ∨ p = "paddingBottom" ∨
              p = "width" ∨ p = "paddingLeft" ∨ p = "paddingRight")
  | _ => false

/-- Result of invoking a component method: new state, new element,
effect trace. -/
abbrev MethodResult := ComponentState × Element × List Effect

/-! ### The string helpers of the component -/

/-- Matches the regex character class of uppercase ASCII letters used by the source. -/
def isUpperAscii (c : Char) : Bool := 'A' ≤ c && c ≤ 'Z'

/-- Source `String.prototype.replace(new RegExp(ch), repl)`: replace the first
occurrence of the character `target` by `repl`. -/
def replaceFirst : List Char → Char → List Char → List Char
  | [], _, _ => []
  | c :: cs, target, repl =>
      if c = target then repl ++ cs else c :: replaceFirst cs target repl

/-- Source `convertToCssProperty`: collect the uppercase characters, replace the
first occurrence of each (in order) by a hyphen plus its lowercase form,
then strip a single leading hyphen. -/
def convertToCssProperty (style : String) : String :=
  let upperChars := style.toList.filter isUpperAscii
  if upperChars.isEmpty then
    style
  else
    let replaced :=
      upperChars.foldl (fun acc c => replaceFirst acc c ['-', c.toLower]) style.toList
    match replaced with
    | '-' :: rest => String.mk rest
    | l => String.mk l

/-- The kebab-case transform exactly as the specification words it:
insert a hyphen before each uppercase letter and lowercase it, then
strip a single leading hyphen if the first character produced one;
strings without uppercase letters are returned unchanged. -/
def kebabSpec (style : String) : String :=
  let expanded :=
    (style.toList.map (fun c => if isUpperAscii c then ['-', c.toLower] else [c])).flatten
  match style.toList with
  | [] => style
  | c :: _ =>
      if isUpperAscii c then String.mk expanded.tail else String.mk expanded

/-- The computed property `transition`: one token per cached key,
`<kebab-property> <duration>ms <easing>`, joined by a comma and a
space. -/
def transitionDecl (s : ComponentState) : String :=
  String.intercalate ", "
    (s.cachedStyles.map (fun kv =>
      convertToCssProperty kv.1.name ++ " " ++ toString s.duration ++ "ms " ++ s.easing))

/-! ### The DOM-reading helpers -/

/-- Source `getCssValue`: `getComputedStyle(el, null).getPropertyValue(style)`,
together with the computed-style read it performs. -/
def getCssValue (el : Element) (style : String) : String × List Effect :=
  (if style = "padding-top" then el.computedPaddingTop
   else if style = "padding-bottom" then el.computedPaddingBottom
   else if style = "padding-left" then el.computedPaddingLeft
   else if style = "padding-right" then el.computedPaddingRight
   else "",
   [Effect.computedRead style])

/-- Source `detectRelevantDimensions`: the properties to be transitioned for
the configured dimension.  `a || b` on strings falls back to `b` exactly
when `a` is the empty string, and only then evaluates `b`. -/
def detectRelevantDimensions (s : ComponentState) (el : Element) :
    CachedStyles × List Effect :=
  if s.dimension = "height" then
    let pt := if el.style.paddingTop = "" then getCssValue el "padding-top"
              else (el.style.paddingTop, [])
    let pb := if el.style.paddingBottom = "" then getCssValue el "padding-bottom"
              else (el.style.paddingBottom, [])
    ([(.height, toString el.offsetHeight ++ "px"),
      (.paddingTop, pt.1), (.paddingBottom, pb.1)],
     Effect.layoutRead "offsetHeight" :: (pt.2 ++ pb.2))
  else if s.dimension = "width" then
    let pl := if el.style.paddingLeft = "" then getCssValue el "padding-left"
              else (el.style.paddingLeft, [])
    let pr := if el.style.paddingRight = "" then getCssValue el "padding-right"
              else (el.style.paddingRight, [])
    ([(.width, toString el.offsetWidth ++ "px"),
      (.paddingLeft, pl.1), (.paddingRight, pr.1)],
     Effect.layoutRead "offsetWidth" :: (pl.2 ++ pr.2))
  else
    ([], [])

/-- Source `detectAndCacheDimensions`: return immediately when the cache is
already populated; otherwise hide the element via `visibility`, clear
its inline `display`, measure, and restore both original values. -/
def detectAndCacheDimensions (s : ComponentState) (el : Element) : MethodResult :=
  if s.cachedStyles = [] then
    let visibility := el.style.visibility
    let display := el.style.display
    let el1 : Element :=
      { el with style := { el.style with visibility := "hidden", display := "" } }
    let probed := detectRelevantDimensions s el1
    let el2 : Element :=
      { el1 with style := { el1.style with visibility := visibility, display := display } }
    ({ s with cachedStyles := probed.1 }, el2,
     Effect.styleWrite "visibility" "hidden" :: Effect.styleWrite "display" "" ::
       (probed.2 ++ [Effect.styleWrite "visibility" visibility,
                     Effect.styleWrite "display" display]))
  else
    (s, el, [])

/-- Source `clearCachedDimensions`. -/
def clearCachedDimensions (s : ComponentState) : ComponentState :=
  { s with cachedStyles := [] }

/-! ### The style-mutation helpers -/

/-- Source `setTransition`: install the transition declaration inline. -/
def setTransition (s : ComponentState) (el : Element) : MethodResult :=
  (s, { el with style := { el.style with transition := transitionDecl s } },
   [Effect.styleWrite "transition" (transitionDecl s)])

/-- Source `unsetTransition`. -/
def unsetTransition (s : ComponentState) (el : Element) : MethodResult :=
  (s, { el with style := { el.style with transition := "" } },
   [Effect.styleWrite "transition" ""])

/-- Source `hideOverflow`. -/
def hideOverflow (s : ComponentState) (el : Element) : MethodResult :=
  (s, { el with style := { el.style with overflow := "hidden" } },
   [Effect.styleWrite "overflow" "hidden"])

/-- Source `unsetOverflow`. -/
def unsetOverflow (s : ComponentState) (el : Element) : MethodResult :=
  (s, { el with style := { el.style with overflow := "" } },
   [Effect.styleWrite "overflow" ""])

/-- Source `setClosedDimensions`: every cached key to `0`. -/
def setClosedDimensions (s : ComponentState) (el : Element) : MethodResult :=
  (s,
   { el with style := s.cachedStyles.foldl (fun st kv => st.setKey kv.1 "0") el.style },
   s.cachedStyles.map (fun kv => Effect.styleWrite kv.1.name "0"))

/-- Source `setOpenedDimensions`: every cached key to its cached value. -/
def setOpenedDimensions (s : ComponentState) (el : Element) : MethodResult :=
  (s,
   { el with style := s.cachedStyles.foldl (fun st kv => st.setKey kv.1 kv.2) el.style },
   s.cachedStyles.map (fun kv => Effect.styleWrite kv.1.name kv.2))

/-- Source `unsetDimensions`: every cached key back to the empty string. -/
def unsetDimensions (s : ComponentState) (el : Element) : MethodResult :=
  (s,
   { el with style := s.cachedStyles.foldl (fun st kv => st.setKey kv.1 "") el.style },
   s.cachedStyles.map (fun kv => Effect.styleWrite kv.1.name ""))

/-- Source `forceRepaint`: read a computed style of the configured dimension;
no mutation, only a layout-flushing read. -/
def forceRepaint (s : ComponentState) (el : Element) : MethodResult :=
  (s, el, [Effect.computedRead s.dimension])

/-! ### The twelve lifecycle handlers -/

/-- Source `beforeAppear`. -/
def beforeAppear (s : ComponentState) (el : Element) : MethodResult :=
  (s, el, [Effect.emitted "before-appear" el.ref none])

/-- Source `appear`. -/
def appear (s : ComponentState) (el : Element) : MethodResult :=
  (s, el, [Effect.emitted "appear" el.ref none])

/-- Source `afterAppear`. -/
def afterAppear (s : ComponentState) (el : Element) : MethodResult :=
  (s, el, [Effect.emitted "after-appear" el.ref none])

/-- Source `appearCancelled`. -/
def appearCancelled (s : ComponentState) (el : Element) : MethodResult :=
  (s, el, [Effect.emitted "appear-cancelled" el.ref none])

/-- Source `beforeEnter`. -/
def beforeEnter (s : ComponentState) (el : Element) : MethodResult :=
  (s, el, [Effect.emitted "before-enter" el.ref none])

/-- Source `enter`: probe, closed styles, overflow, forced repaint, transition,
opened styles, emit, schedule completion. -/
def enter (s : ComponentState) (el : Element) (done : Nat) : MethodResult :=
  let r1 := detectAndCacheDimensions s el
  let r2 := setClosedDimensions r1.1 r1.2.1
  let r3 := hideOverflow r2.1 r2.2.1
  let r4 := forceRepaint r3.1 r3.2.1
  let r5 := setTransition r4.1 r4.2.1
  let r6 := setOpenedDimensions r5.1 r5.2.1
  (r6.1, r6.2.1,
   r1.2.2 ++ r2.2.2 ++ r3.2.2 ++ r4.2.2 ++ r5.2.2 ++ r6.2.2 ++
     [Effect.emitted "enter" r6.2.1.ref (some done),
      Effect.timeoutScheduled done r6.1.duration])

/-- Source `afterEnter`: clean up inline styles, clear the cache, emit. -/
def afterEnter (s : ComponentState) (el : Element) : MethodResult :=
  let r1 := unsetOverflow s el
  let r2 := unsetTransition r1.1 r1.2.1
  let r3 := unsetDimensions r2.1 r2.2.1
  let s4 := clearCachedDimensions r3.1
  (s4, r3.2.1,
   r1.2.2 ++ r2.2.2 ++ r3.2.2 ++ [Effect.emitted "after-enter" r3.2.1.ref none])

/-- Source `enterCancelled`. -/
def enterCancelled (s : ComponentState) (el : Element) : MethodResult :=
  (s, el, [Effect.emitted "enter-cancelled" el.ref none])

/-- Source `beforeLeave`. -/
def beforeLeave (s : ComponentState) (el : Element) : MethodResult :=
  (s, el, [Effect.emitted "before-leave" el.ref none])

/-- Source `leave`: probe, opened styles, overflow, forced repaint, transition,
closed styles, emit, schedule completion. -/
def leave (s : ComponentState) (el : Element) (done : Nat) : MethodResult :=
  let r1 := detectAndCacheDimensions s el
  let r2 := setOpenedDimensions r1.1 r1.2.1
  let r3 := hideOverflow r2.1 r2.2.1
  let r4 := forceRepaint r3.1 r3.2.1
  let r5 := setTransition r4.1 r4.2.1
  let r6 := setClosedDimensions r5.1 r5.2.1
  (r6.1, r6.2.1,
   r1.2.2 ++ r2.2.2 ++ r3.2.2 ++ r4.2.2 ++ r5.2.2 ++ r6.2.2 ++
     [Effect.emitted "leave" r6.2.1.ref (some done),
      Effect.timeoutScheduled done r6.1.duration])

/-- Source `afterLeave`: clean up inline styles, clear the cache, emit. -/
def afterLeave (s : ComponentState) (el : Element) : MethodResult :=
  let r1 := unsetOverflow s el
  let r2 := unsetTransition r1.1 r1.2.1
  let r3 := unsetDimensions r2.1 r2.2.1
  let s4 := clearCachedDimensions r3.1
  (s4, r3.2.1,
   r1.2.2 ++ r2.2.2 ++ r3.2.2 ++ [Effect.emitted "after-leave" r3.2.1.ref none])

/-- Source `leaveCancelled`. -/
def leaveCancelled (s : ComponentState) (el : Element) : MethodResult :=
  (s, el, [Effect.emitted "leave-cancelled" el.ref none])

/-! ### The state machine over the operations of the component -/

/-- One externally triggered operation on the component: a lifecycle
hook invocation from the host, or a change of the `dimension` prop
(whose watcher clears the cache). -/
inductive Action where
  | beforeAppearA (el : Element)
  | appearA (el : Element)
  | afterAppearA (el : Element)
  | appearCancelledA (el : Element)
  | beforeEnterA (el : Element)
  | enterA (el : Element) (done : Nat)
  | afterEnterA (el : Element)
  | enterCancelledA (el : Element)
  | beforeLeaveA (el : Element)
  | leaveA (el : Element) (done : Nat)
  | afterLeaveA (el : Element)
  | leaveCancelledA (el : Element)
  | setDimension (d : String)

/-- The component-state effect of one operation.  Changing `dimension`
to a different value triggers the watcher, which runs
`clearCachedDimensions`. -/
def applyAction (s : ComponentState) : Action → ComponentState
  | .beforeAppearA el => (beforeAppear s el).1
  | .appearA el => (appear s el).1
  | .afterAppearA el => (afterAppear s el).1
  | .appearCancelledA el => (appearCancelled s el).1
  | .beforeEnterA el => (beforeEnter s el).1
  | .enterA el done => (enter s el done).1
  | .afterEnterA el => (afterEnter s el).1
  | .enterCancelledA el => (enterCancelled s el).1
  | .beforeLeaveA el => (beforeLeave s el).1
  | .leaveA el done => (leave s el done).1
  | .afterLeaveA el => (afterLeave s el).1
  | .leaveCancelledA el => (leaveCancelled s el).1
  | .setDimension d =>
      if d = s.dimension then s
      else clearCachedDimensions { s with dimension := d }

/-- The cache-shape invariant: empty, or exactly the three height keys
under the height axis, or exactly the three width keys under the width
axis. -/
def cacheInvariant (s : ComponentState) : Prop :=
  s.cachedStyles = [] ∨
  (s.dimension = "height" ∧
    s.cachedStyles.map Prod.fst = [.height, .paddingTop, .paddingBottom]) ∨
  (s.dimension = "width" ∧
    s.cachedStyles.map Prod.fst = [.width, .paddingLeft, .paddingRight])

/-! ### Sample inputs used by witnesses -/

/-- A default component: axis height, duration 300, easing ease-in. -/
def sampleState : ComponentState := {}

/-- A component whose cache holds a height-axis measurement. -/
def cachedState : ComponentState :=
  { cachedStyles := [(.height, "120px"), (.paddingTop, "10px"), (.paddingBottom, "5px")] }

/-- A component configured with the unsupported axis value "depth". -/
def depthState : ComponentState := { dimension := "depth" }

/-- A concrete element: natural height 120px, width 80px, stylesheet
paddings, no inline styles. -/
def sampleEl : Element :=
  { ref := 1, offsetHeight := 120, offsetWidth := 80,
    computedPaddingTop := "10px", computedPaddingBottom := "5px",
    computedPaddingLeft := "2px", computedPaddingRight := "3px" }

/-! ### Helper lemmas -/

theorem setKey_getKey (st : InlineStyle) (j k : StyleKey) (v : String) :
    (st.setKey j v).getKey k = if k = j then v else st.getKey k := by
  cases j <;> cases k <;> simp [InlineStyle.setKey, InlineStyle.getKey]

theorem setKey_overflow (st : InlineStyle) (k : StyleKey) (v : String) :
    (st.setKey k v).overflow = st.overflow := by
  cases k <;> rfl

theorem setKey_transition (st : InlineStyle) (k : StyleKey) (v : String) :
    (st.setKey k v).transition = st.transition := by
  cases k <;> rfl

theorem foldl_setKey_overflow (g : StyleKey × String → String) (l : CachedStyles)
    (st : InlineStyle) :
    (l.foldl (fun acc kv => acc.setKey kv.1 (g kv)) st).overflow = st.overflow := by
  induction l generalizing st with
  | nil => rfl
  | cons a t ih => simpa [setKey_overflow] using ih (st.setKey a.1 (g a))

theorem foldl_setKey_transition (g : StyleKey × String → String) (l : CachedStyles)
    (st : InlineStyle) :
    (l.foldl (fun acc kv => acc.setKey kv.1 (g kv)) st).transition = st.transition := by
  induction l generalizing st with
  | nil => rfl
  | cons a t ih => simpa [setKey_transition] using ih (st.setKey a.1 (g a))

theorem foldl_setKey_const_getKey (v : String) (l : CachedStyles) (st : InlineStyle)
    (k : StyleKey) :
    (l.foldl (fun acc kv => acc.setKey kv.1 v) st).getKey k =
      if k ∈ l.map Prod.fst then v else st.getKey k := by
  induction l generalizing st with
  | nil => simp
  | cons a t ih =>
      simp only [List.foldl_cons, List.map_cons, List.mem_cons]
      rw [ih]
      by_cases hm : k ∈ List.map Prod.fst t <;>
        rcases eq_or_ne k a.1 with h | h <;>
          simp [hm, h, setKey_getKey]

theorem detect_state_eq (s : ComponentState) (el : Element) :
    (detectAndCacheDimensions s el).1 =
      { s with cachedStyles := (detectAndCacheDimensions s el).1.cachedStyles } := by
  unfold detectAndCacheDimensions
  split <;> rfl

theorem detect_dimension (s : ComponentState) (el : Element) :
    (detectAndCacheDimensions s el).1.dimension = s.dimension := by
  unfold detectAndCacheDimensions
  split <;> rfl

theorem detect_duration (s : ComponentState) (el : Element) :
    (detectAndCacheDimensions s el).1.duration = s.duration := by
  unfold detectAndCacheDimensions
  split <;> rfl

theorem detect_ref (s : ComponentState) (el : Element) :
    (detectAndCacheDimensions s el).2.1.ref = el.ref := by
  unfold detectAndCacheDimensions
  split <;> rfl

theorem convert_eq_kebab_on_keys (k : StyleKey) :
    convertToCssProperty k.name = kebabSpec k.name := by
  cases k <;> rfl

theorem enter_trace (s : ComponentState) (el : Element) (done : Nat) :
    (enter s el done).2.2 =
      (detectAndCacheDimensions s el).2.2 ++
      (detectAndCacheDimensions s el).1.cachedStyles.map
        (fun kv => Effect.styleWrite kv.1.name "0") ++
      [Effect.styleWrite "overflow" "hidden"] ++
      [Effect.computedRead s.dimension] ++
      [Effect.styleWrite "transition" (transitionDecl (detectAndCacheDimensions s el).1)] ++
      (detectAndCacheDimensions s el).1.cachedStyles.map
        (fun kv => Effect.styleWrite kv.1.name kv.2) ++
      [Effect.emitted "enter" el.ref (some done),
       Effect.timeoutScheduled done s.duration] := by
  simp [enter, setClosedDimensions, hideOverflow, forceRepaint, setTransition,
    setOpenedDimensions, detect_dimension, detect_duration, detect_ref]

theorem leave_trace (s : ComponentState) (el : Element) (done : Nat) :
    (leave s el done).2.2 =
      (detectAndCacheDimensions s el).2.2 ++
      (detectAndCacheDimensions s el).1.cachedStyles.map
        (fun kv => Effect.styleWrite kv.1.name kv.2) ++
      [Effect.styleWrite "overflow" "hidden"] ++
      [Effect.computedRead s.dimension] ++
      [Effect.styleWrite "transition" (transitionDecl (detectAndCacheDimensions s el).1)] ++
      (detectAndCacheDimensions s el).1.cachedStyles.map
        (fun kv => Effect.styleWrite kv.1.name "0") ++
      [Effect.emitted "leave" el.ref (some done),
       Effect.timeoutScheduled done s.duration] := by
  simp [leave, setClosedDimensions, hideOverflow, forceRepaint, setTransition,
    setOpenedDimensions, detect_dimension, detect_duration, detect_ref]

theorem detect_trace_filters (s : ComponentState) (el : Element) :
    (detectAndCacheDimensions s el).2.2.filter Effect.isEmit = [] ∧
    (detectAndCacheDimensions s el).2.2.filter Effect.isTimeout = [] := by
  by_cases hc : s.cachedStyles = []
  · by_cases hd : s.dimension = "height"
    · by_cases h1 : el.style.paddingTop = "" <;> by_cases h2 : el.style.paddingBottom = "" <;>
        simp [detectAndCacheDimensions, detectRelevantDimensions, getCssValue, hc, hd,
          h1, h2, Effect.isEmit, Effect.isTimeout, List.filter_cons]
    · by_cases hw : s.dimension = "width"
      · by_cases h1 : el.style.paddingLeft = "" <;> by_cases h2 : el.style.paddingRight = "" <;>
          simp [detectAndCacheDimensions, detectRelevantDimensions, getCssValue, hc, hd, hw,
            h1, h2, Effect.isEmit, Effect.isTimeout, List.filter_cons]
      · simp [detectAndCacheDimensions, detectRelevantDimensions, hc, hd, hw,
          Effect.isEmit, Effect.isTimeout, List.filter_cons]
  · simp [detectAndCacheDimensions, hc]

theorem filter_isEmit_writes (l : CachedStyles) (f : StyleKey × String → String) :
    (l.map (fun kv => Effect.styleWrite kv.1.name (f kv))).filter Effect.isEmit = [] := by
  induction l with
  | nil => rfl
  | cons a t ih => simpa [List.filter_cons, Effect.isEmit] using ih

theorem filter_isTimeout_writes (l : CachedStyles) (f : StyleKey × String → String) :
    (l.map (fun kv => Effect.styleWrite kv.1.name (f kv))).filter Effect.isTimeout = [] := by
  induction l with
  | nil => rfl
  | cons a t ih => simpa [List.filter_cons, Effect.isTimeout] using ih

theorem detect_el_restored (s : ComponentState) (el : Element) :
    (detectAndCacheDimensions s el).2.1 = el := by
  obtain ⟨r, st, oh, ow, cpt, cpb, cpl, cpr⟩ := el
  obtain ⟨v, di, ov, tr, h, pt, pb, w, pl, pr⟩ := st
  unfold detectAndCacheDimensions
  split <;> rfl

theorem detect_detect_cache (s : ComponentState) (el : Element) :
    (detectAndCacheDimensions (detectAndCacheDimensions s el).1
        (detectAndCacheDimensions s el).2.1).1.cachedStyles =
      (detectAndCacheDimensions s el).1.cachedStyles := by
  obtain ⟨n, d, du, e, cs⟩ := s
  obtain ⟨r, st, oh, ow, cpt, cpb, cpl, cpr⟩ := el
  obtain ⟨v, di, ov, tr, h, pt, pb, w, pl, pr⟩ := st
  by_cases hc : cs = ([] : CachedStyles)
  · subst hc
    by_cases hd : d = "height"
    · subst hd
      by_cases h1 : pt = "" <;> by_cases h2 : pb = "" <;>
        simp [detectAndCacheDimensions, detectRelevantDimensions, getCssValue, h1, h2]
    · by_cases hw : d = "width"
      · subst hw
        by_cases h1 : pl = "" <;> by_cases h2 : pr = "" <;>
          simp [detectAndCacheDimensions, detectRelevantDimensions, getCssValue, h1, h2]
      · simp [detectAndCacheDimensions, detectRelevantDimensions, hd, hw]
  · simp [detectAndCacheDimensions, hc]

/-! ### The claims -/

/-- C1: every enter invocation performs, synchronously and in order,
(1) the probe, (2) writing `0` to every cached property, (3) hiding
overflow, (4) a computed-style read forcing a reflow, (5) installing the
transition declaration inline, (6) writing the cached natural value to
every cached property, (7) emitting the phase-start notification with
the element and callback, (8) scheduling the callback; a leave
invocation performs the same eight steps with the closed and opened
style applications (steps 2 and 6) swapped. -/
theorem enter_leave_eight_step_order (s : ComponentState) (el : Element) (done : Nat) :
    (enter s el done).2.2 =
      (detectAndCacheDimensions s el).2.2 ++
      (detectAndCacheDimensions s el).1.cachedStyles.map
        (fun kv => Effect.styleWrite kv.1.name "0") ++
      [Effect.styleWrite "overflow" "hidden"] ++
      [Effect.computedRead s.dimension] ++
      [Effect.styleWrite "transition" (transitionDecl (detectAndCacheDimensions s el).1)] ++
      (detectAndCacheDimensions s el).1.cachedStyles.map
        (fun kv => Effect.styleWrite kv.1.name kv.2) ++
      [Effect.emitted "enter" el.ref (some done),
       Effect.timeoutScheduled done s.duration] ∧
    (leave s el done).2.2 =
      (detectAndCacheDimensions s el).2.2 ++
      (detectAndCacheDimensions s el).1.cachedStyles.map
        (fun kv => Effect.styleWrite kv.1.name kv.2) ++
      [Effect.styleWrite "overflow" "hidden"] ++
      [Effect.computedRead s.dimension] ++
      [Effect.styleWrite "transition" (transitionDecl (detectAndCacheDimensions s el).1)] ++
      (detectAndCacheDimensions s el).1.cachedStyles.map
        (fun kv => Effect.styleWrite kv.1.name "0") ++
      [Effect.emitted "leave" el.ref (some done),
       Effect.timeoutScheduled done s.duration] :=
  ⟨enter_trace s el done, leave_trace s el done⟩

/-- C2: the probe is idempotent within a phase: on a non-empty cache it
returns state and element unchanged with an empty effect trace (no DOM
read, no style mutation), and two consecutive probe invocations yield
the same cache both times. -/
theorem probe_idempotent_within_phase (s : ComponentState) (el : Element) :
    (s.cachedStyles ≠ [] → detectAndCacheDimensions s el = (s, el, [])) ∧
    (detectAndCacheDimensions (detectAndCacheDimensions s el).1
        (detectAndCacheDimensions s el).2.1).1.cachedStyles =
      (detectAndCacheDimensions s el).1.cachedStyles := by
  constructor
  · intro hne
    unfold detectAndCacheDimensions
    rw [if_neg hne]
  · exact detect_detect_cache s el

/-- C2 witness: with a populated height cache the probe is the identity
and performs no effect. -/
theorem probe_idempotent_witness :
    cachedState.cachedStyles ≠ [] ∧
    detectAndCacheDimensions cachedState sampleEl = (cachedState, sampleEl, []) :=
  ⟨by decide, (probe_idempotent_within_phase cachedState sampleEl).1 (by decide)⟩

/-- C4: the transition declaration has exactly one comma-separated token
per cached key, formatted kebab-property, space, duration in ms, space,
easing, where the camelCase-to-kebab conversion agrees with the pure
transform of the specification on every cacheable key. -/
theorem transition_declaration_tokens (s : ComponentState) :
    (∀ k : StyleKey, convertToCssProperty k.name = kebabSpec k.name) ∧
    transitionDecl s =
      String.intercalate ", "
        (s.cachedStyles.map (fun kv =>
          kebabSpec kv.1.name ++ " " ++ toString s.duration ++ "ms " ++ s.easing)) := by
  refine ⟨convert_eq_kebab_on_keys, ?_⟩
  unfold transitionDecl
  congr 1
  exact List.map_congr_left (fun kv _ => by rw [convert_eq_kebab_on_keys])

theorem getKey_over_tr (st : InlineStyle) (a b : String) (k : StyleKey) :
    ({ st with overflow := a, transition := b } : InlineStyle).getKey k = st.getKey k := by
  cases k <;> rfl

theorem afterEnter_eq (s : ComponentState) (el : Element) :
    afterEnter s el =
      ({ s with cachedStyles := [] },
       { el with style :=
           (s.cachedStyles.foldl (fun acc kv => acc.setKey kv.1 "")
             ({ el.style with overflow := "", transition := "" })) },
       Effect.styleWrite "overflow" "" :: Effect.styleWrite "transition" "" ::
         (s.cachedStyles.map (fun kv => Effect.styleWrite kv.1.name "") ++
          [Effect.emitted "after-enter" el.ref none])) := rfl

theorem afterLeave_eq (s : ComponentState) (el : Element) :
    afterLeave s el =
      ({ s with cachedStyles := [] },
       { el with style :=
           (s.cachedStyles.foldl (fun acc kv => acc.setKey kv.1 "")
             ({ el.style with overflow := "", transition := "" })) },
       Effect.styleWrite "overflow" "" :: Effect.styleWrite "transition" "" ::
         (s.cachedStyles.map (fun kv => Effect.styleWrite kv.1.name "") ++
          [Effect.emitted "after-leave" el.ref none])) := rfl

/-- C3: when the settle hook runs, the element keeps no inline overflow
or transition override and the inline style of every cached key is reset to
the unset value, while any key outside the cache is untouched; the cache
is cleared, the style resets (covering exactly the keys cached at entry,
hence performed before the clearing) precede the identically named
notification, which is emitted last.  This holds for both after-enter
and after-leave. -/
theorem settle_cleanup_resets_and_clears (s : ComponentState) (el : Element) :
    ((afterEnter s el).2.1.style.overflow = "" ∧
     (afterEnter s el).2.1.style.transition = "" ∧
     (∀ kv ∈ s.cachedStyles, (afterEnter s el).2.1.style.getKey kv.1 = "") ∧
     (∀ k : StyleKey, k ∉ s.cachedStyles.map Prod.fst →
        (afterEnter s el).2.1.style.getKey k = el.style.getKey k) ∧
     (afterEnter s el).1.cachedStyles = [] ∧
     (afterEnter s el).2.2 =
       Effect.styleWrite "overflow" "" :: Effect.styleWrite "transition" "" ::
         (s.cachedStyles.map (fun kv => Effect.styleWrite kv.1.name "") ++
          [Effect.emitted "after-enter" el.ref none])) ∧
    ((afterLeave s el).2.1.style.overflow = "" ∧
     (afterLeave s el).2.1.style.transition = "" ∧
     (∀ kv ∈ s.cachedStyles, (afterLeave s el).2.1.style.getKey kv.1 = "") ∧
     (∀ k : StyleKey, k ∉ s.cachedStyles.map Prod.fst →
        (afterLeave s el).2.1.style.getKey k = el.style.getKey k) ∧
     (afterLeave s el).1.cachedStyles = [] ∧
     (afterLeave s el).2.2 =
       Effect.styleWrite "overflow" "" :: Effect.styleWrite "transition" "" ::
         (s.cachedStyles.map (fun kv => Effect.styleWrite kv.1.name "") ++
          [Effect.emitted "after-leave" el.ref none])) := by
  rw [afterEnter_eq, afterLeave_eq]
  refine ⟨⟨?_, ?_, ?_, ?_, rfl, rfl⟩, ⟨?_, ?_, ?_, ?_, rfl, rfl⟩⟩ <;>
    first
    | exact foldl_setKey_overflow (fun _ => "") s.cachedStyles _
    | exact foldl_setKey_transition (fun _ => "") s.cachedStyles _
    | (intro kv hkv
       rw [foldl_setKey_const_getKey]
       simp [List.mem_map_of_mem Prod.fst hkv])
    | (intro k hk
       rw [foldl_setKey_const_getKey, if_neg hk]
       exact getKey_over_tr el.style "" "" k)

/-- C3 witness: settling from the populated sample cache leaves the
height key unset and the cache empty. -/
theorem settle_cleanup_witness :
    (afterEnter cachedState sampleEl).2.1.style.getKey StyleKey.height = "" ∧
    (afterEnter cachedState sampleEl).1.cachedStyles = [] := by
  have h := settle_cleanup_resets_and_clears cachedState sampleEl
  exact ⟨h.1.2.2.1 (StyleKey.height, "120px") (by decide), h.1.2.2.2.2.1⟩

/-- C5: on an empty cache the probe measures the element with inline
visibility forced to hidden and inline display cleared (so it keeps
participating in layout), caches the laid-out size together with the
inline paddings falling back to computed-style paddings when no inline
value is set, and afterwards the element is exactly as before: original
inline visibility and display restored, and no other inline style
changed. -/
theorem probe_hides_measures_restores (s : ComponentState) (el : Element)
    (hc : s.cachedStyles = []) :
    (detectAndCacheDimensions s el).1.cachedStyles =
      (detectRelevantDimensions s
        { el with style := { el.style with visibility := "hidden", display := "" } }).1 ∧
    (detectAndCacheDimensions s el).2.1 = el ∧
    (detectAndCacheDimensions s el).2.2 =
      Effect.styleWrite "visibility" "hidden" :: Effect.styleWrite "display" "" ::
        ((detectRelevantDimensions s
            { el with style := { el.style with visibility := "hidden", display := "" } }).2 ++
         [Effect.styleWrite "visibility" el.style.visibility,
          Effect.styleWrite "display" el.style.display]) ∧
    (s.dimension = "height" →
      (detectAndCacheDimensions s el).1.cachedStyles =
        [(.height, toString el.offsetHeight ++ "px"),
         (.paddingTop, if el.style.paddingTop = "" then el.computedPaddingTop
                       else el.style.paddingTop),
         (.paddingBottom, if el.style.paddingBottom = "" then el.computedPaddingBottom
                          else el.style.paddingBottom)]) ∧
    (s.dimension = "width" →
      (detectAndCacheDimensions s el).1.cachedStyles =
        [(.width, toString el.offsetWidth ++ "px"),
         (.paddingLeft, if el.style.paddingLeft = "" then el.computedPaddingLeft
                        else el.style.paddingLeft),
         (.paddingRight, if el.style.paddingRight = "" then el.computedPaddingRight
                         else el.style.paddingRight)]) := by
  refine ⟨?_, detect_el_restored s el, ?_, ?_, ?_⟩
  · unfold detectAndCacheDimensions
    rw [if_pos hc]
  · unfold detectAndCacheDimensions
    rw [if_pos hc]
  · intro hd
    by_cases h1 : el.style.paddingTop = "" <;> by_cases h2 : el.style.paddingBottom = "" <;>
      simp [detectAndCacheDimensions, detectRelevantDimensions, getCssValue, hc, hd, h1, h2]
  · intro hd
    have hne : s.dimension ≠ "height" := by rw [hd]; decide
    by_cases h1 : el.style.paddingLeft = "" <;> by_cases h2 : el.style.paddingRight = "" <;>
      simp [detectAndCacheDimensions, detectRelevantDimensions, getCssValue, hc, hne, hd, h1, h2]

/-- C5 witness: probing the concrete sample element caches its natural
height and computed paddings and hands the element back unchanged. -/
theorem probe_frame_witness :
    (detectAndCacheDimensions sampleState sampleEl).2.1 = sampleEl ∧
    (detectAndCacheDimensions sampleState sampleEl).1.cachedStyles =
      [(.height, "120px"), (.paddingTop, "10px"), (.paddingBottom, "5px")] := by
  have h := probe_hides_measures_restores sampleState sampleEl rfl
  refine ⟨h.2.1, ?_⟩
  rw [h.2.2.2.1 rfl]
  decide

theorem intercalate_nil (x : String) : String.intercalate x [] = "" := rfl

/-- C6: for a dimension outside height and width, the probe returns the
empty mapping; starting from an empty cache the derived transition
declaration is the empty string, the enter and leave traces carry no
size or padding style write at all (a silent no-op: only the visibility and
display bookkeeping of the probe, the overflow and empty transition
writes, and the reflow read occur), and the completion callback is still
scheduled with the configured duration. -/
theorem unsupported_dimension_silent_noop (s : ComponentState) (el : Element) (done : Nat)
    (h1 : s.dimension ≠ "height") (h2 : s.dimension ≠ "width") :
    (detectRelevantDimensions s el).1 = [] ∧
    (s.cachedStyles = [] →
      transitionDecl s = "" ∧
      (enter s el done).2.2 =
        [Effect.styleWrite "visibility" "hidden", Effect.styleWrite "display" "",
         Effect.styleWrite "visibility" el.style.visibility,
         Effect.styleWrite "display" el.style.display,
         Effect.styleWrite "overflow" "hidden",
         Effect.computedRead s.dimension,
         Effect.styleWrite "transition" "",
         Effect.emitted "enter" el.ref (some done),
         Effect.timeoutScheduled done s.duration] ∧
      (leave s el done).2.2 =
        [Effect.styleWrite "visibility" "hidden", Effect.styleWrite "display" "",
         Effect.styleWrite "visibility" el.style.visibility,
         Effect.styleWrite "display" el.style.display,
         Effect.styleWrite "overflow" "hidden",
         Effect.computedRead s.dimension,
         Effect.styleWrite "transition" "",
         Effect.emitted "leave" el.ref (some done),
         Effect.timeoutScheduled done s.duration] ∧
      (enter s el done).2.2.filter Effect.isDimensionWrite = [] ∧
      (leave s el done).2.2.filter Effect.isDimensionWrite = [] ∧
      (enter s el done).2.2.filter Effect.isTimeout =
        [Effect.timeoutScheduled done s.duration] ∧
      (leave s el done).2.2.filter Effect.isTimeout =
        [Effect.timeoutScheduled done s.duration]) := by
  constructor
  · unfold detectRelevantDimensions
    rw [if_neg h1, if_neg h2]
  · intro hc
    have hent : (enter s el done).2.2 =
        [Effect.styleWrite "visibility" "hidden", Effect.styleWrite "display" "",
         Effect.styleWrite "visibility" el.style.visibility,
         Effect.styleWrite "display" el.style.display,
         Effect.styleWrite "overflow" "hidden",
         Effect.computedRead s.dimension,
         Effect.styleWrite "transition" "",
         Effect.emitted "enter" el.ref (some done),
         Effect.timeoutScheduled done s.duration] := by
      rw [enter_trace]
      simp [detectAndCacheDimensions, detectRelevantDimensions, transitionDecl,
        intercalate_nil, hc, h1, h2]
    have hlvt : (leave s el done).2.2 =
        [Effect.styleWrite "visibility" "hidden", Effect.styleWrite "display" "",
         Effect.styleWrite "visibility" el.style.visibility,
         Effect.styleWrite "display" el.style.display,
         Effect.styleWrite "overflow" "hidden",
         Effect.computedRead s.dimension,
         Effect.styleWrite "transition" "",
         Effect.emitted "leave" el.ref (some done),
         Effect.timeoutScheduled done s.duration] := by
      rw [leave_trace]
      simp [detectAndCacheDimensions, detectRelevantDimensions, transitionDecl,
        intercalate_nil, hc, h1, h2]
    refine ⟨by simp [transitionDecl, hc, intercalate_nil], hent, hlvt, ?_, ?_, ?_, ?_⟩ <;>
      first
      | (rw [hent]; rfl)
      | (rw [hlvt]; rfl)

/-- C6 witness: with the unsupported axis value "depth" and an empty
cache, the probe yields the empty mapping, the transition declaration is
empty, no size or padding property is written, and completion is still
scheduled after the 300ms default duration. -/
theorem unsupported_dimension_witness :
    (detectRelevantDimensions depthState sampleEl).1 = [] ∧
    transitionDecl depthState = "" ∧
    (enter depthState sampleEl 7).2.2.filter Effect.isDimensionWrite = [] ∧
    (enter depthState sampleEl 7).2.2.filter Effect.isTimeout =
      [Effect.timeoutScheduled 7 300] := by
  have h := unsupported_dimension_silent_noop depthState sampleEl 7 (by decide) (by decide)
  exact ⟨h.1, (h.2 rfl).1, (h.2 rfl).2.2.2.1, (h.2 rfl).2.2.2.2.2.1⟩

/-- C7: every one of the twelve lifecycle handlers re-emits the
identically named notification with the arguments it received: the
element reference for all twelve, plus the completion callback for the
two driving hooks that receive one (enter and leave).  The eight
pass-through handlers emit exactly that one event and do nothing else;
enter, leave, after-enter and after-leave emit exactly that one event
among their effects. -/
theorem bridge_reemits_all_twelve (s : ComponentState) (el : Element) (done : Nat) :
    beforeAppear s el = (s, el, [Effect.emitted "before-appear" el.ref none]) ∧
    appear s el = (s, el, [Effect.emitted "appear" el.ref none]) ∧
    afterAppear s el = (s, el, [Effect.emitted "after-appear" el.ref none]) ∧
    appearCancelled s el = (s, el, [Effect.emitted "appear-cancelled" el.ref none]) ∧
    beforeEnter s el = (s, el, [Effect.emitted "before-enter" el.ref none]) ∧
    (enter s el done).2.2.filter Effect.isEmit =
      [Effect.emitted "enter" el.ref (some done)] ∧
    (afterEnter s el).2.2.filter Effect.isEmit =
      [Effect.emitted "after-enter" el.ref none] ∧
    enterCancelled s el = (s, el, [Effect.emitted "enter-cancelled" el.ref none]) ∧
    beforeLeave s el = (s, el, [Effect.emitted "before-leave" el.ref none]) ∧
    (leave s el done).2.2.filter Effect.isEmit =
      [Effect.emitted "leave" el.ref (some done)] ∧
    (afterLeave s el).2.2.filter Effect.isEmit =
      [Effect.emitted "after-leave" el.ref none] ∧
    leaveCancelled s el = (s, el, [Effect.emitted "leave-cancelled" el.ref none]) := by
  refine ⟨rfl, rfl, rfl, rfl, rfl, ?_, ?_, rfl, rfl, ?_, ?_, rfl⟩
  · rw [enter_trace]
    simp [List.filter_append, (detect_trace_filters s el).1, filter_isEmit_writes,
      List.filter_cons, Effect.isEmit]
  · rw [afterEnter_eq]
    simp [List.filter_append, filter_isEmit_writes, List.filter_cons, Effect.isEmit]
  · rw [leave_trace]
    simp [List.filter_append, (detect_trace_filters s el).1, filter_isEmit_writes,
      List.filter_cons, Effect.isEmit]
  · rw [afterLeave_eq]
    simp [List.filter_append, filter_isEmit_writes, List.filter_cons, Effect.isEmit]

/-- C7 counterexample: the after-enter and after-leave handlers do not
carry or re-emit a completion callback.  At a concrete invocation, the
only notification each one emits carries the element reference and an
empty callback slot, so an invocation of these two driving hooks cannot
be re-emitted with a completion callback among its arguments. -/
theorem after_hooks_reemit_without_callback :
    (afterEnter cachedState sampleEl).2.2.filter Effect.isEmit =
      [Effect.emitted "after-enter" sampleEl.ref none] ∧
    (afterLeave cachedState sampleEl).2.2.filter Effect.isEmit =
      [Effect.emitted "after-leave" sampleEl.ref none] :=
  ⟨rfl, rfl⟩

theorem detect_invariant (s : ComponentState) (el : Element) (h : cacheInvariant s) :
    cacheInvariant (detectAndCacheDimensions s el).1 := by
  by_cases hc : s.cachedStyles = []
  · by_cases hd : s.dimension = "height"
    · refine Or.inr (Or.inl ⟨by rw [detect_dimension]; exact hd, ?_⟩)
      simp [detectAndCacheDimensions, detectRelevantDimensions, hc, hd]
    · by_cases hw : s.dimension = "width"
      · refine Or.inr (Or.inr ⟨by rw [detect_dimension]; exact hw, ?_⟩)
        simp [detectAndCacheDimensions, detectRelevantDimensions, hc, hd, hw]
      · refine Or.inl ?_
        simp [detectAndCacheDimensions, detectRelevantDimensions, hc, hd, hw]
  · have : detectAndCacheDimensions s el = (s, el, []) := by
      unfold detectAndCacheDimensions
      rw [if_neg hc]
    rw [this]
    exact h

/-- C8: the cache is always empty, or exactly the height triple with
axis height, or exactly the width triple with axis width: the initial
state satisfies this shape invariant, every operation (all twelve
lifecycle handlers and a dimension-prop change) preserves it, and
changing the dimension to a different value immediately empties the
cache. -/
theorem cache_shape_invariant :
    cacheInvariant {} ∧
    (∀ (s : ComponentState) (a : Action), cacheInvariant s → cacheInvariant (applyAction s a)) ∧
    (∀ (s : ComponentState) (d : String), d ≠ s.dimension →
      (applyAction s (Action.setDimension d)).cachedStyles = []) := by
  refine ⟨Or.inl rfl, ?_, ?_⟩
  · intro s a h
    cases a with
    | beforeAppearA el => exact h
    | appearA el => exact h
    | afterAppearA el => exact h
    | appearCancelledA el => exact h
    | beforeEnterA el => exact h
    | enterA el done => exact detect_invariant s el h
    | afterEnterA el => exact Or.inl rfl
    | enterCancelledA el => exact h
    | beforeLeaveA el => exact h
    | leaveA el done => exact detect_invariant s el h
    | afterLeaveA el => exact Or.inl rfl
    | leaveCancelledA el => exact h
    | setDimension d =>
        by_cases hd : d = s.dimension
        · simpa [applyAction, hd] using h
        · exact Or.inl (by simp [applyAction, hd, clearCachedDimensions])
  · intro s d hne
    simp [applyAction, hne, clearCachedDimensions]

/-- C8 witness: a populated height cache satisfies the invariant and an
enter invocation preserves it. -/
theorem cache_shape_invariant_witness :
    cacheInvariant cachedState ∧
    cacheInvariant (applyAction cachedState (Action.enterA sampleEl 5)) := by
  have hinv : cacheInvariant cachedState := Or.inr (Or.inl ⟨rfl, rfl⟩)
  exact ⟨hinv, cache_shape_invariant.2.1 cachedState (Action.enterA sampleEl 5) hinv⟩

/-- C9: each enter and each leave invocation schedules the completion
callback exactly once, non-blockingly, with a delay equal to the
configured duration, and the scheduling effect sits after the final
(opened respectively closed) style-application writes of the phase in the
synchronous trace, so the callback cannot fire earlier than duration
milliseconds after that step. -/
theorem completion_scheduled_once (s : ComponentState) (el : Element) (done : Nat) :
    ((enter s el done).2.2.filter Effect.isTimeout =
       [Effect.timeoutScheduled done s.duration]) ∧
    (∃ ts, (enter s el done).2.2 =
       ts ++
       (detectAndCacheDimensions s el).1.cachedStyles.map
         (fun kv => Effect.styleWrite kv.1.name kv.2) ++
       [Effect.emitted "enter" el.ref (some done),
        Effect.timeoutScheduled done s.duration]) ∧
    ((leave s el done).2.2.filter Effect.isTimeout =
       [Effect.timeoutScheduled done s.duration]) ∧
    (∃ ts, (leave s el done).2.2 =
       ts ++
       (detectAndCacheDimensions s el).1.cachedStyles.map
         (fun kv => Effect.styleWrite kv.1.name "0") ++
       [Effect.emitted "leave" el.ref (some done),
        Effect.timeoutScheduled done s.duration]) := by
  refine ⟨?_, ?_, ?_, ?_⟩
  · rw [enter_trace]
    simp [List.filter_append, (detect_trace_filters s el).2, filter_isTimeout_writes,
      List.filter_cons, Effect.isTimeout]
  · refine ⟨(detectAndCacheDimensions s el).2.2 ++
      (detectAndCacheDimensions s el).1.cachedStyles.map
        (fun kv => Effect.styleWrite kv.1.name "0") ++
      [Effect.styleWrite "overflow" "hidden"] ++
      [Effect.computedRead s.dimension] ++
      [Effect.styleWrite "transition"
        (transitionDecl (detectAndCacheDimensions s el).1)], ?_⟩
    rw [enter_trace]
  · rw [leave_trace]
    simp [List.filter_append, (detect_trace_filters s el).2, filter_isTimeout_writes,
      List.filter_cons, Effect.isTimeout]
  · refine ⟨(detectAndCacheDimensions s el).2.2 ++
      (detectAndCacheDimensions s el).1.cachedStyles.map
        (fun kv => Effect.styleWrite kv.1.name kv.2) ++
      [Effect.styleWrite "overflow" "hidden"] ++
      [Effect.computedRead s.dimension] ++
      [Effect.styleWrite "transition"
        (transitionDecl (detectAndCacheDimensions s el).1)], ?_⟩
    rw [leave_trace]

theorem set_ov_tr_self (st : InlineStyle) (h1 : st.overflow = "") (h2 : st.transition = "") :
    ({ st with overflow := "", transition := "" } : InlineStyle) = st := by
  cases st
  simp_all

theorem element_style_eta (el : Element) (st : InlineStyle) (h : st = el.style) :
    ({ el with style := st } : Element) = el := by
  subst h
  rfl

/-- C10: the settle cleanup is idempotent: on an empty cache the
after-enter and after-leave handlers only reset the inline overflow and
transition styles, touch no size or padding property, and leave the
state unchanged; and running either cleanup twice in succession yields
the same component state and the same element as running it once. -/
theorem settle_cleanup_idempotent (s : ComponentState) (el : Element) :
    (s.cachedStyles = [] →
      afterEnter s el =
        (s, { el with style := { el.style with overflow := "", transition := "" } },
         [Effect.styleWrite "overflow" "", Effect.styleWrite "transition" "",
          Effect.emitted "after-enter" el.ref none]) ∧
      afterLeave s el =
        (s, { el with style := { el.style with overflow := "", transition := "" } },
         [Effect.styleWrite "overflow" "", Effect.styleWrite "transition" "",
          Effect.emitted "after-leave" el.ref none])) ∧
    ((afterEnter (afterEnter s el).1 (afterEnter s el).2.1).1 = (afterEnter s el).1 ∧
     (afterEnter (afterEnter s el).1 (afterEnter s el).2.1).2.1 = (afterEnter s el).2.1 ∧
     (afterLeave (afterLeave s el).1 (afterLeave s el).2.1).1 = (afterLeave s el).1 ∧
     (afterLeave (afterLeave s el).1 (afterLeave s el).2.1).2.1 = (afterLeave s el).2.1) := by
  constructor
  · intro hc
    obtain ⟨n, d, du, e, cs⟩ := s
    replace hc : cs = [] := hc
    subst hc
    exact ⟨rfl, rfl⟩
  · refine ⟨rfl, ?_, rfl, ?_⟩
    · exact element_style_eta _ _ (set_ov_tr_self (afterEnter s el).2.1.style
        (foldl_setKey_overflow (fun _ => "") s.cachedStyles
          ({ el.style with overflow := "", transition := "" }))
        (foldl_setKey_transition (fun _ => "") s.cachedStyles
          ({ el.style with overflow := "", transition := "" })))
    · exact element_style_eta _ _ (set_ov_tr_self (afterLeave s el).2.1.style
        (foldl_setKey_overflow (fun _ => "") s.cachedStyles
          ({ el.style with overflow := "", transition := "" }))
        (foldl_setKey_transition (fun _ => "") s.cachedStyles
          ({ el.style with overflow := "", transition := "" })))

/-- C10 witness: cleaning up the default-state sample element resets
only overflow and transition and keeps the state. -/
theorem settle_cleanup_idempotent_witness :
    afterEnter sampleState sampleEl =
      (sampleState,
       { sampleEl with style := { sampleEl.style with overflow := "", transition := "" } },
       [Effect.styleWrite "overflow" "", Effect.styleWrite "transition" "",
        Effect.emitted "after-enter" sampleEl.ref none]) :=
  ((settle_cleanup_idempotent sampleState sampleEl).1 rfl).1

end CollapseTransitionModel
